import Mathlib

/-!
Shallow embedding of the external financial-report reconciliation and
caching engine of the customer-follow-up system (server module
`src/unnamed/part_005`, first document).  Upstream JSON payloads are
modelled by the inductive `JValue`; JavaScript numbers are modelled as
exact rationals (the engine only parses decimal strings, compares with
zero and stringifies, so no IEEE-754 rounding behaviour is observable in
the verified properties).  Stateful code (the three in-memory report
caches, the query route and the sync route) is modelled by explicit
state passing; the local relational database, which the spec treats as
an external collaborator, is modelled as an oracle record of pure
lookup functions.
-/

/-- JSON values as delivered by the upstream endpoints.  Object fields
are kept in insertion order, matching the key-enumeration order of
JavaScript objects built by `JSON.parse`. -/
inductive JValue where
  | jnull : JValue
  | jbool : Bool → JValue
  | jnum : ℚ → JValue
  | jstr : String → JValue
  | jarr : List JValue → JValue
  | jobj : List (String × JValue) → JValue

/-- `x && typeof x === 'object'`: JavaScript classifies both plain
objects and arrays as `'object'`; `null` is excluded by the truthiness
test. -/
def jsTruthyObject : JValue → Bool
  | .jarr _ => true
  | .jobj _ => true
  | _ => false

/-- `Object.values(x)` for the object case, `[]` otherwise (the BFS
queue of the extractor only ever holds plain objects). -/
def jObjValues : JValue → List JValue
  | .jobj fields => fields.map (fun p => p.2)
  | _ => []

/-- `Object.prototype.hasOwnProperty.call(row, key)` for the keys the
engine uses (none of which are array index or `length` names). -/
def jHasKey (row : JValue) (key : String) : Bool :=
  match row with
  | .jobj fields => fields.any (fun p => p.1 = key)
  | _ => false

/-- `row[key]` on an object, `none` when absent or `row` is not an
object. -/
def jGet (row : JValue) (key : String) : Option JValue :=
  match row with
  | .jobj fields => (fields.find? (fun p => p.1 = key)).map (fun p => p.2)
  | _ => none

/-- Decimal digit list to natural number. -/
def digitsToNat (cs : List Char) : Nat :=
  cs.foldl (fun a c => a * 10 + (c.toNat - 48)) 0

def allDigits (cs : List Char) : Bool :=
  cs.all Char.isDigit

/-- Left-pad a digit string with zeros up to width `n`. -/
def padLeftZeros (s : String) (n : Nat) : String :=
  if n ≤ s.length then s else String.mk (List.replicate (n - s.length) '0') ++ s

/-- `toLowerCase()` (character-wise; ASCII case folding — the engine's
labels beyond ASCII are Hebrew, which has no case). -/
def strToLower (s : String) : String :=
  String.mk (s.toList.map Char.toLower)

/-- `trim()` (strips the common whitespace characters). -/
def strTrim (s : String) : String :=
  String.mk (((s.toList.dropWhile Char.isWhitespace).reverse.dropWhile
    Char.isWhitespace).reverse)

/-- Render a rational as JavaScript renders the corresponding number.
Integers print as plain decimals; other values (which the engine only
ever obtains from finite decimal strings) print with their terminating
decimal expansion.  Exponent notation for very large or tiny magnitudes
is not modelled; no verified property depends on it. -/
def ratToString (q : ℚ) : String :=
  if q.den = 1 then toString q.num
  else
    match (List.range 40).find? (fun k => (q * (10 : ℚ) ^ k).den = 1) with
    | some k =>
        let n : Int := (q * (10 : ℚ) ^ k).num
        let s := padLeftZeros (toString n.natAbs) (k + 1)
        let cs := s.toList
        let whole := String.mk (cs.take (cs.length - k))
        let frac := String.mk (cs.drop (cs.length - k))
        (if n < 0 then "-" else "") ++ whole ++ "." ++ frac
    | none => toString q.num ++ "/" ++ toString q.den

mutual
/-- JavaScript `String(v)` coercion. -/
def jsToString : JValue → String
  | .jnull => "null"
  | .jbool b => if b then "true" else "false"
  | .jnum q => ratToString q
  | .jstr s => s
  | .jarr xs => String.intercalate "," (jsToStringArrayElems xs)
  | .jobj _ => "[object Object]"

/-- Array elements under `String`: `null` renders as the empty string
inside `Array.prototype.join`. -/
def jsToStringArrayElems : List JValue → List String
  | [] => []
  | .jnull :: vs => "" :: jsToStringArrayElems vs
  | v :: vs => jsToString v :: jsToStringArrayElems vs
end

/-- `String(value ?? '')` applied to a possibly-absent field value:
`??` replaces both an absent (`undefined`) and a `null` value with the
empty string. -/
def jsStrOfOpt : Option JValue → String
  | none => ""
  | some .jnull => ""
  | some v => jsToString v

/-- Minimal JSON string escaping (quotes and backslashes; the engine's
keys and values contain no control characters). -/
def jsonEscape (s : String) : String :=
  String.mk (s.toList.foldr (fun c acc =>
    (if c = '\\' then ['\\', '\\']
     else if c = '"' then ['\\', '"'] else [c]) ++ acc) [])

mutual
/-- `JSON.stringify` of a parsed JSON value. -/
def jsonStringify : JValue → String
  | .jnull => "null"
  | .jbool b => if b then "true" else "false"
  | .jnum q => ratToString q
  | .jstr s => "\"" ++ jsonEscape s ++ "\""
  | .jarr xs => "[" ++ String.intercalate "," (jsonStringifyList xs) ++ "]"
  | .jobj fs => "\x7b" ++ String.intercalate "," (jsonStringifyFields fs) ++ "\x7d"

def jsonStringifyList : List JValue → List String
  | [] => []
  | v :: vs => jsonStringify v :: jsonStringifyList vs

def jsonStringifyFields : List (String × JValue) → List String
  | [] => []
  | (k, v) :: fs =>
      ("\"" ++ jsonEscape k ++ "\":" ++ jsonStringify v) :: jsonStringifyFields fs
end

/-- Optional sign prefix: returns (negative?, rest). -/
def parseSign : List Char → Bool × List Char
  | '+' :: t => (false, t)
  | '-' :: t => (true, t)
  | cs => (false, cs)

/-- Unsigned decimal mantissa: `digits`, `digits.digits`, `digits.` or
`.digits` (at least one digit overall), as accepted by JavaScript
`Number`. -/
def parseUnsignedMantissa (cs : List Char) : Option ℚ :=
  let sp := cs.span (fun c => c ≠ '.')
  match sp.2 with
  | [] =>
      if cs ≠ [] ∧ allDigits cs then some (digitsToNat cs : ℚ) else none
  | _ :: r =>
      let l := sp.1
      if (l ≠ [] ∨ r ≠ []) ∧ allDigits l ∧ allDigits r then
        some ((digitsToNat l : ℚ) + (digitsToNat r : ℚ) / (10 : ℚ) ^ r.length)
      else none

/-- Signed decimal exponent part. -/
def parseExpPart (cs : List Char) : Option Int :=
  let sg := parseSign cs
  if sg.2 ≠ [] ∧ allDigits sg.2 then
    some (if sg.1 then -(digitsToNat sg.2 : Int) else (digitsToNat sg.2 : Int))
  else none

/-- JavaScript `Number(s)` on a string, with `none` standing for `NaN`.
The empty (or all-whitespace) string converts to `0`.  Decimal and
exponent forms are modelled; hexadecimal/binary/octal literals and the
`Infinity` spellings are not produced by the upstream reports, and the
engine's only use collapses every non-finite result to `0` via
`Number.isFinite`, which `none` reproduces. -/
def jsNumber (s : String) : Option ℚ :=
  let t := strTrim s
  if t = "" then some 0
  else
    let cs := t.toList
    let sp := cs.span (fun c => c ≠ 'e' ∧ c ≠ 'E')
    let sg := parseSign sp.1
    match parseUnsignedMantissa sg.2, sp.2 with
    | some m, [] => some (if sg.1 then -m else m)
    | some m, _ :: ecs =>
        (parseExpPart ecs).map (fun ex => (if sg.1 then -m else m) * (10 : ℚ) ^ ex)
    | none, _ => none

/-- JavaScript `a || b` on nullable strings: the empty string is falsy. -/
def jsStrOr (a b : Option String) : Option String :=
  match a with
  | some s => if s = "" then b else some s
  | none => b

/-- `v || null` on a nullable string: collapses the empty string to
`null`. -/
def jsStrNull (a : Option String) : Option String :=
  jsStrOr a none

/-- `v || null` on a nullable number-valued id: collapses `0` to
`null`. -/
def jsNatNull (a : Option Nat) : Option Nat :=
  match a with
  | some n => if n = 0 then none else some n
  | none => none

/-- `a || b` on nullable objects (any object is truthy). -/
def jsOptOr (a b : Option α) : Option α :=
  match a with
  | some x => some x
  | none => b

/-- JavaScript `Map.prototype.set`: overwrite in place or append. -/
def jsMapSet (m : List (String × α)) (k : String) (v : α) : List (String × α) :=
  if m.any (fun p => p.1 = k) then
    m.map (fun p => if p.1 = k then (k, v) else p)
  else m ++ [(k, v)]

/-- JavaScript `Map.prototype.get`, `none` for a missing key. -/
def jsMapGet (m : List (String × α)) (k : String) : Option α :=
  (m.find? (fun p => p.1 = k)).map (fun p => p.2)

/-- `needle.isPrefixOf hay` on character lists. -/
def listStartsWith : List Char → List Char → Bool
  | [], _ => true
  | _ :: _, [] => false
  | a :: as, b :: bs => a = b && listStartsWith as bs

/-- `hay.includes(needle)` on character lists. -/
def listContainsSeq (needle : List Char) : List Char → Bool
  | [] => needle = []
  | b :: bs => listStartsWith needle (b :: bs) || listContainsSeq needle bs

/-- JavaScript `haystack.includes(needle)`. -/
def strContains (haystack needle : String) : Bool :=
  listContainsSeq needle.toList haystack.toList

/-- `String(v || '').toLowerCase().trim()` — the text normalization of
`normalizeTextSearch`, lifted to a nullable string field. -/
def normalizeTextSearchOpt : Option String → String
  | none => ""
  | some s => strTrim (strToLower s)

/-- `normalizeTextSearch` on a present string. -/
def normalizeTextSearch (s : String) : String :=
  strTrim (strToLower s)

/-- `String(v || '').replace(/\D+/g, '')` — digits-only phone
normalization of `normalizePhoneSearch`. -/
def normalizePhoneSearch (s : String) : String :=
  String.mk (s.toList.filter Char.isDigit)

/-- `normalizePhoneSearch` on a nullable field. -/
def normalizePhoneSearchOpt : Option String → String
  | none => ""
  | some s => normalizePhoneSearch s

/-- `rowLooksLikeReport175`: does the row carry an account-card-number
key under one of its known spellings (the plain Hebrew label, its
duplicate escaped spelling, or its mojibake corruption)? -/
def rowLooksLikeReport175 (row : JValue) : Bool :=
  jsTruthyObject row &&
    (jHasKey row "מספר כרטיס חשבון" ||
     jHasKey row "מספר כרטיס חשבון" ||
     jHasKey row "×ž×¡×¤×¨ ×›×¨×˜×™×¡ ×—×©×‘×•×Ÿ")

/-- `rowLooksLikeReport198`: account-key or account-name label. -/
def rowLooksLikeReport198 (row : JValue) : Bool :=
  jsTruthyObject row &&
    (jHasKey row "מפתח חשבון" ||
     jHasKey row "שם חשבון")

/-- `rowLooksLikeReport176`: contact-name, mobile-phone or e-mail label. -/
def rowLooksLikeReport176 (row : JValue) : Bool :=
  jsTruthyObject row &&
    (jHasKey row "שם איש קשר" ||
     jHasKey row "טלפון נייד" ||
     jHasKey row "דוא\"ל")

/-- `pickReport175Value`: first present key spelling wins. -/
def pickReport175Value (row : JValue) (keys : List String) : Option JValue :=
  match keys with
  | [] => none
  | k :: rest => if jHasKey row k then jGet row k else pickReport175Value row rest

/-- `toReport175Number`: stringify, strip thousands separators, trim,
parse; any non-finite result degrades to `0`. -/
def toReport175Number (value : Option JValue) : ℚ :=
  (jsNumber (strTrim (String.mk ((jsStrOfOpt value).toList.filter
    (fun c => c ≠ ','))))).getD 0

mutual
/-- Structural size of a JSON value, used as the BFS termination
measure. -/
def jvalSize : JValue → Nat
  | .jnull => 1
  | .jbool _ => 1
  | .jnum _ => 1
  | .jstr _ => 1
  | .jarr xs => 1 + jvalListSize xs
  | .jobj fs => 1 + jvalFieldsSize fs

def jvalListSize : List JValue → Nat
  | [] => 0
  | v :: vs => 1 + jvalSize v + jvalListSize vs

def jvalFieldsSize : List (String × JValue) → Nat
  | [] => 0
  | (_, v) :: fs => 1 + jvalSize v + jvalFieldsSize fs
end

theorem sum_map_filter_le (l : List α) (p : α → Bool) (f : α → Nat) :
    ((l.filter p).map f).sum ≤ (l.map f).sum := by
  induction l with
  | nil => simp
  | cons a t ih =>
      by_cases h : p a = true <;> simp [List.filter_cons, h] <;> omega

theorem sum_map_jvalSize_values_lt (v : JValue) :
    ((jObjValues v).map jvalSize).sum < jvalSize v := by
  cases v with
  | jobj fields =>
      simp only [jObjValues, jvalSize]
      induction fields with
      | nil => simp [jvalFieldsSize]
      | cons p t ih =>
          cases p with
          | mk k w =>
              simp only [List.map_cons, List.map_map, List.sum_cons, jvalFieldsSize] at *
              omega
  | jnull => simp [jObjValues, jvalSize]
  | jbool b => simp [jObjValues, jvalSize]
  | jnum q => simp [jObjValues, jvalSize]
  | jstr s => simp [jObjValues, jvalSize]
  | jarr xs => simp [jObjValues, jvalSize]

/-- `Array.isArray(v)` as an optional projection to the elements. -/
def jArrOf : JValue → Option (List JValue)
  | .jarr xs => some xs
  | _ => none

/-- `value && typeof value === 'object'` with arrays already peeled off
(the branch that enqueues a value for further traversal). -/
def isJObj : JValue → Bool
  | .jobj _ => true
  | _ => false

theorem collectArrays_step_lt (current : JValue) (rest : List JValue) :
    (((rest ++ (jObjValues current).filter isJObj).map jvalSize).sum) <
      (((current :: rest).map jvalSize).sum) := by
  simp only [List.map_append, List.sum_append, List.map_cons, List.sum_cons]
  have h1 := sum_map_filter_le (jObjValues current) isJObj jvalSize
  have h2 := sum_map_jvalSize_values_lt current
  omega

/-- The BFS loop of `extractReport175Rows`: dequeue an object, record
its array-valued fields as candidates, enqueue its object-valued fields
for further traversal (arrays are not descended into). -/
def collectArrays : List JValue → List (List JValue)
  | [] => []
  | current :: rest =>
      ((jObjValues current).filterMap jArrOf) ++
      collectArrays (rest ++ (jObjValues current).filter isJObj)
termination_by q => (q.map jvalSize).sum
decreasing_by
  exact collectArrays_step_lt _ _

/-- Candidate score: `1000 * (rows matching the report-175 shape
predicate) + (object-typed rows)`; arrays count as object-typed. -/
def scoreReport175Array (arr : List JValue) : Nat :=
  let objectRows := arr.filter jsTruthyObject
  let reportRows := objectRows.filter rowLooksLikeReport175
  reportRows.length * 1000 + objectRows.length

/-- The scoring loop: running best candidate and best score, the score
starting below every real score so the first candidate is adopted;
strict comparison keeps the first-seen candidate on ties. -/
def pickBestLoop (arrays : List (List JValue)) (best : List JValue) (bestScore : Int) :
    List JValue :=
  match arrays with
  | [] => best
  | arr :: rest =>
      if (scoreReport175Array arr : Int) > bestScore then
        pickBestLoop rest arr (scoreReport175Array arr)
      else
        pickBestLoop rest best bestScore

/-- `extractReport175Rows`: an array payload is returned as-is; a
non-object payload yields no rows; otherwise the object graph is
traversed breadth-first and the best-scoring candidate array (first
seen on ties) is returned, the empty list when no array exists.  The
function is total — the extractor never throws. -/
def extractReport175Rows (payload : JValue) : List JValue :=
  match payload with
  | .jarr xs => xs
  | .jobj fields =>
      match collectArrays [.jobj fields] with
      | [] => []
      | a0 :: rest => pickBestLoop (a0 :: rest) a0 (-1)
  | _ => []

/-- `extractReportRowsByPredicate`: restrict the extracted rows to
object rows matching the predicate, falling back to all object rows
when none matches. -/
def extractReportRowsByPredicate (payload : JValue) (predicate : JValue → Bool) :
    List JValue :=
  let rows := extractReport175Rows payload
  if rows.length = 0 then []
  else
    let matching := rows.filter (fun row => jsTruthyObject row && predicate row)
    if matching.length ≠ 0 then matching else rows.filter jsTruthyObject

/-- Canonical record produced by `mapReport175Row` for the primary
(balance/account) report. -/
structure Report175Row where
  external_id : String
  account_card_number : Option ℚ
  account_key : Option String
  account_name : Option String
  account_balance : ℚ
  deferred_checks : ℚ
  open_delivery_notes_balance : ℚ
  total_obligo : ℚ
  total_credit : ℚ
  credit_limit : ℚ
  credit_deviation : ℚ
  obligo_limit : ℚ
  obligo_deviation : ℚ
  raw_payload : String
deriving DecidableEq

/-- The key spellings accepted for the account-card-number field. -/
def report175CardNumberKeys : List String :=
  ["מספר כרטיס חשבון",
   "מספר כרטיס חשבון",
   "×ž×¡×¤×¨ ×›×¨×˜×™×¡ ×—×©×‘×•×Ÿ"]

/-- The key spellings accepted for the account-key field. -/
def report175AccountKeyKeys : List String :=
  ["מפתח חשבון",
   "מפתח חשבון",
   "×ž×¤×ª×— ×—×©×‘×•×Ÿ"]

/-- The key spellings accepted for the account-name field. -/
def report175AccountNameKeys : List String :=
  ["שם חשבון",
   "שם חשבון",
   "×©×\u009d ×—×©×‘×•×Ÿ"]

/-- `mapReport175Row`.  The `sha1hex` parameter models the external
`crypto.createHash('sha1')...digest('hex')` digest of the serialized
row used as the last-resort identity; the server module never imports
`crypto`, so in the running code this branch in fact throws (see the
failing-input theorem for claim C2) — the digest itself is an external
library, modelled here as an opaque string function parameter. -/
def mapReport175Row (sha1hex : String → String) (row : JValue) : Report175Row :=
  let accountCardNumber := toReport175Number (pickReport175Value row report175CardNumberKeys)
  let accountKey := strTrim (jsStrOfOpt (pickReport175Value row report175AccountKeyKeys))
  let accountName := strTrim (jsStrOfOpt (pickReport175Value row report175AccountNameKeys))
  let external_id :=
    if accountCardNumber > 0 then ratToString accountCardNumber
    else if accountKey ≠ "" then accountKey
    else "row_" ++ sha1hex (jsonStringify row)
  { external_id := external_id
    account_card_number := if accountCardNumber > 0 then some accountCardNumber else none
    account_key := if accountKey = "" then none else some accountKey
    account_name := if accountName = "" then none else some accountName
    account_balance := toReport175Number (pickReport175Value row
      ["יתרת חשבון",
       "יתרת חשבון",
       "×™×ª×¨×ª ×—×©×‘×•×Ÿ"])
    deferred_checks := toReport175Number (pickReport175Value row
      ["שיקים דחויים"])
    open_delivery_notes_balance := toReport175Number (pickReport175Value row
      ["יתרת תעודות משלוח פתוחות"])
    total_obligo := toReport175Number (pickReport175Value row
      ["סה\"כ אובליגו"])
    total_credit := toReport175Number (pickReport175Value row
      ["סה\"כ אשראי"])
    credit_limit := toReport175Number (pickReport175Value row
      ["תקרת אשראי"])
    credit_deviation := toReport175Number (pickReport175Value row
      ["חריגה מאשראי"])
    obligo_limit := toReport175Number (pickReport175Value row
      ["תקרת אובליגו"])
    obligo_deviation := toReport175Number (pickReport175Value row
      ["חריגה מאובליגו"])
    raw_payload := jsonStringify row }

/-- Canonical contact-enrichment record (reports 198 and 176).  Report
176 rows never carry an external id and report 198 rows never carry a
contact name; the absent field is `none`. -/
structure ContactRow where
  external_id : Option String
  account_key : Option String
  account_name : Option String
  contact_name : Option String
  email : Option String
  phone : Option String
  mobile_phone : Option String
deriving DecidableEq

/-- `mapReport198Row`. -/
def mapReport198Row (row : JValue) : ContactRow :=
  let accountKey := strTrim (jsStrOfOpt (pickReport175Value row
    ["מפתח חשבון"]))
  let accountName := strTrim (jsStrOfOpt (pickReport175Value row
    ["שם חשבון"]))
  let email := strTrim (jsStrOfOpt (pickReport175Value row
    ["דוא\"ל", "email", "Email"]))
  let phone := strTrim (jsStrOfOpt (pickReport175Value row
    ["טלפון", "phone", "Phone"]))
  let mobilePhone := strTrim (jsStrOfOpt (pickReport175Value row
    ["טלפון נייד", "mobile", "Mobile"]))
  let accountCardNumber := toReport175Number (pickReport175Value row
    ["מספר כרטיס חשבון"])
  { external_id := if accountCardNumber > 0 then some (ratToString accountCardNumber) else none
    account_key := if accountKey = "" then none else some accountKey
    account_name := if accountName = "" then none else some accountName
    contact_name := none
    email := if email = "" then none else some email
    phone := if phone = "" then none else some phone
    mobile_phone := if mobilePhone = "" then none else some mobilePhone }

/-- `mapReport176Row`. -/
def mapReport176Row (row : JValue) : ContactRow :=
  let accountKey := strTrim (jsStrOfOpt (pickReport175Value row
    ["מפתח חשבון"]))
  let accountName := strTrim (jsStrOfOpt (pickReport175Value row
    ["שם חשבון"]))
  let contactName := strTrim (jsStrOfOpt (pickReport175Value row
    ["שם איש קשר"]))
  let email := strTrim (jsStrOfOpt (pickReport175Value row ["דוא\"ל"]))
  let phone := strTrim (jsStrOfOpt (pickReport175Value row ["טלפון"]))
  let mobilePhone := strTrim (jsStrOfOpt (pickReport175Value row
    ["טלפון נייד"]))
  { external_id := none
    account_key := if accountKey = "" then none else some accountKey
    account_name := if accountName = "" then none else some accountName
    contact_name := if contactName = "" then none else some contactName
    email := if email = "" then none else some email
    phone := if phone = "" then none else some phone
    mobile_phone := if mobilePhone = "" then none else some mobilePhone }

/-- The locally stored customer record, as read by the matcher: its
external id and its `company` field (which stores the account key). -/
structure Customer where
  external_id : Option String
  company : Option String

/-- JavaScript `String(v)` on a possibly-undefined string field:
`undefined` stringifies to `"undefined"`. -/
def jsStringOfUndef : Option String → String
  | none => "undefined"
  | some s => s

/-- `String(v || '')` on a possibly-undefined string field. -/
def jsStringOrEmpty : Option String → String
  | none => ""
  | some s => s

/-- `pickReportRowForCustomer`: map the object-typed rows to canonical
records and pick by external id, then account key, then first. -/
def pickReportRowForCustomer (sha1hex : String → String) (rows : List JValue)
    (customer : Customer) : Option Report175Row :=
  if rows.length = 0 then none
  else
    let mapped := (rows.filter jsTruthyObject).map (mapReport175Row sha1hex)
    if mapped.length = 0 then none
    else
      match mapped.find? (fun row => row.external_id = jsStringOfUndef customer.external_id) with
      | some row => some row
      | none =>
          match mapped.find? (fun row =>
              jsStringOrEmpty row.account_key = jsStringOrEmpty customer.company) with
          | some row => some row
          | none => mapped.head?

/-- The in-memory reconciliation caches of the server module: the
primary report-175 row list and external-id index, the report-198
account-key/external-id indexes, and the report-176 account-key index,
each with its last-synced timestamp (`none` until the first successful
sync).  Timestamps are abstracted to naturals. -/
structure CacheState where
  report175CacheRows : List Report175Row
  report175CacheByExternalId : List (String × Report175Row)
  report175CacheSyncedAt : Option Nat
  report198CacheByAccountKey : List (String × ContactRow)
  report198CacheByExternalId : List (String × ContactRow)
  report198CacheSyncedAt : Option Nat
  report176CacheByAccountKey : List (String × ContactRow)
  report176CacheSyncedAt : Option Nat
deriving DecidableEq

/-- `setReport175Cache`: replace the row list, rebuild the external-id
index from rows with a truthy external id, stamp the sync time. -/
def setReport175Cache (rows : List Report175Row) (now : Nat) (st : CacheState) :
    CacheState :=
  { st with
    report175CacheRows := rows
    report175CacheByExternalId :=
      (rows.filter (fun row => row.external_id ≠ "")).foldl
        (fun m row => jsMapSet m row.external_id row) []
    report175CacheSyncedAt := some now }

/-- `setReport198Cache`: rebuild both indexes from scratch (a row is
indexed under its account key and/or its external id when present),
stamp the sync time. -/
def setReport198Cache (rows : List ContactRow) (now : Nat) (st : CacheState) :
    CacheState :=
  { st with
    report198CacheByAccountKey :=
      rows.foldl (fun m row =>
        match row.account_key with
        | some k => if k ≠ "" then jsMapSet m k row else m
        | none => m) []
    report198CacheByExternalId :=
      rows.foldl (fun m row =>
        match row.external_id with
        | some e => if e ≠ "" then jsMapSet m e row else m
        | none => m) []
    report198CacheSyncedAt := some now }

/-- `setReport176Cache`: rebuild the account-key index, stamp the sync
time. -/
def setReport176Cache (rows : List ContactRow) (now : Nat) (st : CacheState) :
    CacheState :=
  { st with
    report176CacheByAccountKey :=
      rows.foldl (fun m row =>
        match row.account_key with
        | some k => if k ≠ "" then jsMapSet m k row else m
        | none => m) []
    report176CacheSyncedAt := some now }

/-- The per-row enrichment view built by the joiner. -/
structure Enrichment where
  account_name : Option String
  contact_name : Option String
  email : Option String
  phone : Option String
  mobile_phone : Option String
deriving DecidableEq

/-- `getEnrichmentForWorkRow`: report 176 is looked up by account key
only; report 198 by account key, falling back to external id; report
176's fields win over report 198's, which win over the primary row's
own name.  The caches are read, never written — the result is a fresh
record. -/
def enrichFrom198 (st : CacheState) (workRow : Report175Row) : Option ContactRow :=
  jsOptOr (jsMapGet st.report198CacheByAccountKey (jsStringOrEmpty workRow.account_key))
    (jsMapGet st.report198CacheByExternalId workRow.external_id)

def enrichFrom176 (st : CacheState) (workRow : Report175Row) : Option ContactRow :=
  jsMapGet st.report176CacheByAccountKey (jsStringOrEmpty workRow.account_key)

def getEnrichmentForWorkRow (st : CacheState) (workRow : Report175Row) : Enrichment :=
  let from198 := enrichFrom198 st workRow
  let from176 := enrichFrom176 st workRow
  { account_name := jsStrOr (from176.bind (fun c => c.account_name))
      (jsStrOr (from198.bind (fun c => c.account_name)) (jsStrNull workRow.account_name))
    contact_name := jsStrNull (from176.bind (fun c => c.contact_name))
    email := jsStrOr (from176.bind (fun c => c.email))
      (jsStrNull (from198.bind (fun c => c.email)))
    phone := jsStrOr (from176.bind (fun c => c.phone))
      (jsStrNull (from198.bind (fun c => c.phone)))
    mobile_phone := jsStrOr (from176.bind (fun c => c.mobile_phone))
      (jsStrNull (from198.bind (fun c => c.mobile_phone))) }

/-- `String(v || '').toLowerCase().trim()` on the numeric
account-card-number field (`0` is falsy). -/
def normalizeCardNumberText : Option ℚ → String
  | none => ""
  | some q => if q = 0 then "" else strTrim (strToLower (ratToString q))

/-- The individual normalized own/enriched text fields of a row, in
the order the route lists them.  The last entry models
`workRow?.phone`, a field canonical primary rows never carry, hence
always the empty string. -/
def searchTextFields (st : CacheState) (workRow : Report175Row) : List String :=
  let enriched := getEnrichmentForWorkRow st workRow
  [normalizeTextSearchOpt workRow.account_key,
   normalizeTextSearchOpt workRow.account_name,
   normalizeCardNumberText workRow.account_card_number,
   normalizeTextSearchOpt enriched.account_name,
   normalizeTextSearchOpt enriched.contact_name,
   normalizeTextSearchOpt enriched.email,
   normalizeTextSearchOpt enriched.phone,
   normalizeTextSearchOpt enriched.mobile_phone,
   ""]

/-- The space-joined haystack of normalized text fields that
`rowMatchesSearch` matches against. -/
def searchTextHaystack (st : CacheState) (workRow : Report175Row) : String :=
  String.intercalate " " (searchTextFields st workRow)

/-- The digit-normalized, nonempty phone candidates of a row (enriched
mobile phone, enriched phone, and the always-absent `workRow?.phone`). -/
def phoneCandidatesOf (st : CacheState) (workRow : Report175Row) : List String :=
  let enriched := getEnrichmentForWorkRow st workRow
  [normalizePhoneSearchOpt enriched.mobile_phone,
   normalizePhoneSearchOpt enriched.phone,
   ""].filter (fun s => s ≠ "")

/-- `rowMatchesSearch`: empty search matches everything; otherwise
match the joined text haystack, and failing that match a digit-
normalized phone candidate when the search has a nonempty digits-only
form. -/
def rowMatchesSearch (st : CacheState) (workRow : Report175Row) (search : String) :
    Bool :=
  if search = "" then true
  else
    let normalizedSearchText := normalizeTextSearch search
    let normalizedSearchPhone := normalizePhoneSearch search
    if strContains (searchTextHaystack st workRow) normalizedSearchText then true
    else if normalizedSearchPhone ≠ "" then
      (phoneCandidatesOf st workRow).any
        (fun phone => strContains phone normalizedSearchPhone)
    else false

/-- Latest-handling metadata derived from the most recent note of a
customer (the relational store's view). -/
structure Handling where
  payment_start : Option String
  payment_target : Option String
  managed_by_id : Option Nat
  group_id : Option Nat
  managed_by_name : Option String
  group_name : Option String
deriving DecidableEq

/-- Oracle for the local relational database, the spec's external
collaborator: access-filtered customer-id lookup by external id
(`getCustomerIdsByExternalIds`, pointwise), latest-handling lookups
(`getLatestHandlingByCustomerIds` / `getLatestHandlingByUser`,
pointwise), and the manager/group eligibility id set
(`getEligibleCustomerIdsByFilters`, whose result only exists when a
filter is active). -/
structure Db where
  customerIdByExternalId : String → Option Nat
  handlingById : Nat → Option Handling
  handlingByUser : Nat → Option Handling
  eligibleIds : List Nat

/-- A cached row joined with its local customer id and handling
metadata (the object spread in both pagination paths). -/
structure WorkRow where
  row : Report175Row
  customer_id : Option Nat
  payment_start : Option String
  payment_target : Option String
  managed_by_id : Option Nat
  group_id : Option Nat
  managed_by_name : Option String
  group_name : Option String
deriving DecidableEq

/-- A response row: position-derived `id`, the joined work row, and the
enrichment fields (the spread overrides `account_name`). -/
structure HydratedRow where
  id : Nat
  work : WorkRow
  account_name : Option String
  contact_name : Option String
  email : Option String
  phone : Option String
  mobile_phone : Option String
deriving DecidableEq

/-- Query parameters of `GET /api/customers/reports/175` after route
parsing (`page`/`limit` already integers, `managedBy`/`groupId` through
`parseOptionalInt`). -/
structure QueryParams where
  page : Nat
  limit : Nat
  search : String
  managedBy : Option Int
  groupId : Option Int
  balanceMode : String

/-- The JSON response of the query route. -/
structure QueryResponse where
  customers : List HydratedRow
  total : Nat
  page : Nat
  limit : Nat
  totalPages : Nat
  syncedAt : Option Nat
  report198SyncedAt : Option Nat
  report176SyncedAt : Option Nat
deriving DecidableEq

/-- `applyBalanceMode`: `balance_zero` keeps zero balances; every other
mode string behaves as `balance_non_zero`, keeping nonzero balances. -/
def applyBalanceMode (balanceMode : String) (row : Report175Row) : Bool :=
  if balanceMode = "balance_zero" then decide (row.account_balance = 0)
  else decide (row.account_balance ≠ 0)

/-- `idMap.get(row.external_id) || null` — the access-filtered customer
id of a cached row (`0`, were it ever produced, is falsy). -/
def getCid (db : Db) (row : Report175Row) : Option Nat :=
  jsNatNull (db.customerIdByExternalId row.external_id)

/-- The object spread attaching customer id and handling metadata to a
cached row. -/
def attachHandling (cid : Option Nat) (handling : Option Handling) (row : Report175Row) :
    WorkRow :=
  { row := row
    customer_id := cid
    payment_start := jsStrNull (handling.bind (fun h => h.payment_start))
    payment_target := jsStrNull (handling.bind (fun h => h.payment_target))
    managed_by_id := jsNatNull (handling.bind (fun h => h.managed_by_id))
    group_id := jsNatNull (handling.bind (fun h => h.group_id))
    managed_by_name := jsStrNull (handling.bind (fun h => h.managed_by_name))
    group_name := jsStrNull (handling.bind (fun h => h.group_name)) }

/-- Row attachment on the manager/group-filtered path (handling sourced
from `getLatestHandlingByUser`). -/
def attachByUser (db : Db) (row : Report175Row) : WorkRow :=
  attachHandling (getCid db row) ((getCid db row).bind db.handlingByUser) row

/-- Row attachment on the unfiltered path (handling sourced from
`getLatestHandlingByCustomerIds` for the page's ids). -/
def attachById (db : Db) (row : Report175Row) : WorkRow :=
  attachHandling (getCid db row) ((getCid db row).bind db.handlingById) row

/-- The search- and balance-filtered cache rows (`baseRows` then
`balanceFilteredRows` in the route; the route lowercases and trims the
search before filtering). -/
def searchBalanceRows (st : CacheState) (search balanceMode : String) :
    List Report175Row :=
  (st.report175CacheRows.filter
      (fun row => rowMatchesSearch st row (strToLower (strTrim search)))).filter
    (applyBalanceMode balanceMode)

/-- The eligibility filter of the manager/group path: rows without a
local customer id are dropped, and the id must be in the eligible set. -/
def eligibleWorkRow (db : Db) (w : WorkRow) : Bool :=
  match w.customer_id with
  | none => false
  | some cid => db.eligibleIds.contains cid

/-- `filteredRowsWithHandling` on the manager/group-filtered path: join
the whole balance-filtered set, then keep eligible rows. -/
def handlingRowsAll (db : Db) (st : CacheState) (search balanceMode : String) :
    List WorkRow :=
  ((searchBalanceRows st search balanceMode).map (attachByUser db)).filter
    (eligibleWorkRow db)

/-- Hydration of one result row: positional `id` and enrichment fields,
the enriched account name falling back to the row's own. -/
def hydrateRow (st : CacheState) (rowId : Nat) (w : WorkRow) : HydratedRow :=
  let enriched := getEnrichmentForWorkRow st w.row
  { id := rowId
    work := w
    account_name := jsStrOr enriched.account_name w.row.account_name
    contact_name := enriched.contact_name
    email := enriched.email
    phone := enriched.phone
    mobile_phone := enriched.mobile_phone }

/-- Hydrate a slice whose first element sits at position `offset` of
the full result set: ids are `offset + index + 1`. -/
def hydrateFrom (st : CacheState) (offset : Nat) : List WorkRow → List HydratedRow
  | [] => []
  | w :: ws => hydrateRow st (offset + 1) w :: hydrateFrom st (offset + 1) ws

/-- `Math.max(1, Math.ceil(total / limit))` for a positive `limit` (the
route's `totalPages`; `limit = 0` would give `Infinity` in JavaScript
and is outside every verified property). -/
def queryTotalPages (total limit : Nat) : Nat :=
  max 1 ((total + limit - 1) / limit)

/-- `GET /api/customers/reports/175`: search and balance filtering on
the cache snapshot, then either (manager/group filter active) join and
eligibility-filter the whole set and paginate it — short-circuiting to
an empty result when the eligible-id set is empty — or (no filter)
paginate first and join only the page. -/
def runReport175Query (db : Db) (st : CacheState) (p : QueryParams) : QueryResponse :=
  let offset := (p.page - 1) * p.limit
  let balanceFilteredRows := searchBalanceRows st p.search p.balanceMode
  let needsHandlingFilters := p.managedBy.isSome || p.groupId.isSome
  if needsHandlingFilters then
    if db.eligibleIds.length = 0 then
      { customers := []
        total := 0
        page := p.page
        limit := p.limit
        totalPages := 1
        syncedAt := st.report175CacheSyncedAt
        report198SyncedAt := none
        report176SyncedAt := none }
    else
      let filteredRowsWithHandling := handlingRowsAll db st p.search p.balanceMode
      let pagedRows := (filteredRowsWithHandling.drop offset).take p.limit
      { customers := hydrateFrom st offset pagedRows
        total := filteredRowsWithHandling.length
        page := p.page
        limit := p.limit
        totalPages := queryTotalPages filteredRowsWithHandling.length p.limit
        syncedAt := st.report175CacheSyncedAt
        report198SyncedAt := st.report198CacheSyncedAt
        report176SyncedAt := st.report176CacheSyncedAt }
  else
    let pagedBaseRows := (balanceFilteredRows.drop offset).take p.limit
    let withHandling := pagedBaseRows.map (attachById db)
    { customers := hydrateFrom st offset withHandling
      total := balanceFilteredRows.length
      page := p.page
      limit := p.limit
      totalPages := queryTotalPages balanceFilteredRows.length p.limit
      syncedAt := st.report175CacheSyncedAt
      report198SyncedAt := st.report198CacheSyncedAt
      report176SyncedAt := st.report176CacheSyncedAt }

/-- The summary body of `POST /api/customers/sync`. -/
structure SyncSummary where
  report175Received : Nat
  report175Upserted : Nat
  report198Received : Nat
  report176Received : Nat
  warnings : List String
  message : String
deriving DecidableEq

/-- The warning string pushed when a contact-info report sync fails
(`err?.message || 'Unknown error'`). -/
def syncWarning (reportName msg : String) : String :=
  "Failed to sync report " ++ reportName ++ ": " ++
    (if msg = "" then "Unknown error" else msg)

/-- `POST /api/customers/sync`.  Fetch outcomes are modelled as
`Except` values produced by the report client (which throws typed
errors on missing URL, connection refusal, timeout and non-2xx).  A
primary-report failure fails the whole operation; each contact-info
failure is caught, adds one warning, and leaves that report's cache
untouched.  The `upsertReport175Rows` side effect on the external
customers table returns a count equal to the number of mapped rows. -/
def syncAll (sha1hex : String → String) (now : Nat)
    (fetch175 fetch198 fetch176 : Except String JValue)
    (st : CacheState) : Except String (CacheState × SyncSummary) :=
  match fetch175 with
  | .error e => .error e
  | .ok payload175 =>
      let rows175 := ((extractReport175Rows payload175).filter jsTruthyObject).map
        (mapReport175Row sha1hex)
      let st1 := setReport175Cache rows175 now st
      let step198 : CacheState × List String × Nat :=
        match fetch198 with
        | .ok payload198 =>
            let rows198 := (extractReportRowsByPredicate payload198
              rowLooksLikeReport198).map mapReport198Row
            (setReport198Cache rows198 now st1, [], rows198.length)
        | .error err => (st1, [syncWarning "198" err], 0)
      let step176 : CacheState × List String × Nat :=
        match fetch176 with
        | .ok payload176 =>
            let rows176 := (extractReportRowsByPredicate payload176
              rowLooksLikeReport176).map mapReport176Row
            (setReport176Cache rows176 now step198.1, [], rows176.length)
        | .error err => (step198.1, [syncWarning "176" err], 0)
      let warnings := step198.2.1 ++ step176.2.1
      .ok (step176.1,
        { report175Received := rows175.length
          report175Upserted := rows175.length
          report198Received := step198.2.2
          report176Received := step176.2.2
          warnings := warnings
          message := if warnings.length ≠ 0 then "Sync completed with warnings."
            else "Sync completed successfully." })

/-! ### Shared concrete fixtures -/

/-- A canonical row with only identity/name/balance fields set, as used
by the concrete fixtures. -/
def mkPlainRow (extId : String) (key name : Option String) (balance : ℚ) :
    Report175Row :=
  { external_id := extId
    account_card_number := none
    account_key := key
    account_name := name
    account_balance := balance
    deferred_checks := 0
    open_delivery_notes_balance := 0
    total_obligo := 0
    total_credit := 0
    credit_limit := 0
    credit_deviation := 0
    obligo_limit := 0
    obligo_deviation := 0
    raw_payload := "" }

/-- The process-start cache state: everything empty, no sync yet. -/
def emptyCacheState : CacheState :=
  { report175CacheRows := []
    report175CacheByExternalId := []
    report175CacheSyncedAt := none
    report198CacheByAccountKey := []
    report198CacheByExternalId := []
    report198CacheSyncedAt := none
    report176CacheByAccountKey := []
    report176CacheSyncedAt := none }

/-- A primary cache with one nonzero-balance and one zero-balance row. -/
def stSample : CacheState :=
  { emptyCacheState with
    report175CacheRows :=
      [mkPlainRow "1" (some "a1") (some "2b") 5,
       mkPlainRow "2" none none 0] }

/-- A database oracle with no local customers and an empty eligible
set. -/
def dbSample : Db :=
  { customerIdByExternalId := fun _ => none
    handlingById := fun _ => none
    handlingByUser := fun _ => none
    eligibleIds := [] }

/-! ### Claim C10 — predicate-filtered extraction -/

/-- C10 (counterexample): a payload whose extraction yields a nonempty
row list with no object-typed element makes the predicate-filtered
extraction return the empty list, contradicting "it returns the empty
list only when extraction itself yields no rows". -/
theorem extractReportRowsByPredicate_c10_counterexample :
    extractReportRowsByPredicate (JValue.jarr [JValue.jnum 1]) rowLooksLikeReport198 = []
    ∧ extractReport175Rows (JValue.jarr [JValue.jnum 1]) ≠ [] := by
  refine ⟨rfl, ?_⟩
  simp [extractReport175Rows]

/-- C10 (amended): the predicate-filtered extraction returns the
extracted rows restricted to object rows satisfying the predicate when
at least one such row exists, and otherwise falls back to all extracted
object rows; it returns the empty list exactly when extraction yields
no object-typed rows. -/
theorem extractReportRowsByPredicate_c10 (payload : JValue) (predicate : JValue → Bool) :
    (extractReportRowsByPredicate payload predicate =
      if ((extractReport175Rows payload).filter
          (fun row => jsTruthyObject row && predicate row)).length ≠ 0 then
        (extractReport175Rows payload).filter
          (fun row => jsTruthyObject row && predicate row)
      else (extractReport175Rows payload).filter jsTruthyObject)
    ∧ (extractReportRowsByPredicate payload predicate = [] ↔
        (extractReport175Rows payload).filter jsTruthyObject = []) := by
  constructor
  · unfold extractReportRowsByPredicate
    by_cases h : (extractReport175Rows payload).length = 0
    · have hnil : extractReport175Rows payload = [] := List.length_eq_zero.mp h
      simp [h, hnil]
    · simp [h]
  · unfold extractReportRowsByPredicate
    by_cases h : (extractReport175Rows payload).length = 0
    · have hnil : extractReport175Rows payload = [] := List.length_eq_zero.mp h
      simp [h, hnil]
    · rw [if_neg h]
      by_cases hm : ((extractReport175Rows payload).filter
          (fun row => jsTruthyObject row && predicate row)).length ≠ 0
      · rw [if_pos hm]
        constructor
        · intro hemp
          rw [hemp] at hm
          simp at hm
        · intro hobj
          exfalso
          have hpos : 0 < ((extractReport175Rows payload).filter
              (fun row => jsTruthyObject row && predicate row)).length := Nat.pos_of_ne_zero hm
          obtain ⟨x, hx⟩ := List.exists_mem_of_length_pos hpos
          have hx' := List.mem_filter.mp hx
          have hxt : jsTruthyObject x = true := by
            have hand := hx'.2
            simp only [Bool.and_eq_true] at hand
            exact hand.1
          have : x ∈ (extractReport175Rows payload).filter jsTruthyObject :=
            List.mem_filter.mpr ⟨hx'.1, hxt⟩
          rw [hobj] at this
          exact absurd this (List.not_mem_nil x)
      · simp [hm]

/-! ### Claim C9 — customer matcher -/

/-- C9 (counterexample): a nonempty row list containing no object-typed
row makes the matcher return `null`, contradicting "it returns null
only when the input list is empty". -/
theorem pickReportRowForCustomer_c9_counterexample :
    pickReportRowForCustomer (fun s => s) [JValue.jnull]
      { external_id := none, company := none } = none
    ∧ ([JValue.jnull] : List JValue) ≠ [] := by
  exact ⟨rfl, by simp⟩

/-- C9 (amended): among the object-typed rows mapped to canonical
records, the matcher returns the first whose `external_id` equals the
customer's stored external id, failing that the first whose
`account_key` equals the customer's stored company field, failing that
the first mapped row; it returns null exactly when the list contains no
object-typed row. -/
theorem pickReportRowForCustomer_c9 (sha1hex : String → String) (rows : List JValue)
    (customer : Customer) :
    (pickReportRowForCustomer sha1hex rows customer = none ↔
      (rows.filter jsTruthyObject).map (mapReport175Row sha1hex) = [])
    ∧ (∀ r, ((rows.filter jsTruthyObject).map (mapReport175Row sha1hex)).find?
          (fun row => row.external_id = jsStringOfUndef customer.external_id) = some r →
        pickReportRowForCustomer sha1hex rows customer = some r)
    ∧ (((rows.filter jsTruthyObject).map (mapReport175Row sha1hex)).find?
          (fun row => row.external_id = jsStringOfUndef customer.external_id) = none →
        ∀ r, ((rows.filter jsTruthyObject).map (mapReport175Row sha1hex)).find?
            (fun row => jsStringOrEmpty row.account_key = jsStringOrEmpty customer.company)
              = some r →
        pickReportRowForCustomer sha1hex rows customer = some r)
    ∧ (((rows.filter jsTruthyObject).map (mapReport175Row sha1hex)).find?
          (fun row => row.external_id = jsStringOfUndef customer.external_id) = none →
        ((rows.filter jsTruthyObject).map (mapReport175Row sha1hex)).find?
            (fun row => jsStringOrEmpty row.account_key = jsStringOrEmpty customer.company)
              = none →
        ((rows.filter jsTruthyObject).map (mapReport175Row sha1hex)) ≠ [] →
        pickReportRowForCustomer sha1hex rows customer =
          ((rows.filter jsTruthyObject).map (mapReport175Row sha1hex)).head?) := by
  unfold pickReportRowForCustomer
  by_cases h0 : rows.length = 0
  · have hr : rows = [] := List.length_eq_zero.mp h0
    subst hr
    simp
  · simp only [if_neg h0]
    by_cases hm : ((rows.filter jsTruthyObject).map (mapReport175Row sha1hex)).length = 0
    · have hnil : (rows.filter jsTruthyObject).map (mapReport175Row sha1hex) = [] :=
        List.length_eq_zero.mp hm
      simp [hm, hnil]
    · simp only [if_neg hm]
      have hne : (rows.filter jsTruthyObject).map (mapReport175Row sha1hex) ≠ [] :=
        fun hnil => hm (by rw [hnil]; rfl)
      refine ⟨?_, ?_, ?_, ?_⟩
      · cases hfe : ((rows.filter jsTruthyObject).map (mapReport175Row sha1hex)).find?
            (fun row => row.external_id = jsStringOfUndef customer.external_id) with
        | some r => simp [hfe, hne]
        | none =>
            cases hfk : ((rows.filter jsTruthyObject).map (mapReport175Row sha1hex)).find?
                (fun row => jsStringOrEmpty row.account_key =
                  jsStringOrEmpty customer.company) with
            | some r => simp [hfe, hfk, hne]
            | none =>
                simp only [hfe, hfk]
                cases hcons : (rows.filter jsTruthyObject).map (mapReport175Row sha1hex) with
                | nil => exact absurd hcons hne
                | cons m t => simp [hcons, hne]
      · intro r hfe
        simp [hfe]
      · intro hfe r hfk
        simp [hfe, hfk]
      · intro hfe hfk _
        simp [hfe, hfk]

/-! ### Claim C5 — balance-mode filter -/

/-- C5 (counterexample): a query whose `balanceMode` is neither
`balance_non_zero` nor `balance_zero` is not rejected — the route
consults the cache and answers exactly as for `balance_non_zero`,
returning a cached row. -/
theorem balanceMode_c5_counterexample :
    runReport175Query dbSample stSample
        { page := 1, limit := 20, search := "", managedBy := none, groupId := none,
          balanceMode := "bogus" } =
      runReport175Query dbSample stSample
        { page := 1, limit := 20, search := "", managedBy := none, groupId := none,
          balanceMode := "balance_non_zero" }
    ∧ (runReport175Query dbSample stSample
        { page := 1, limit := 20, search := "", managedBy := none, groupId := none,
          balanceMode := "bogus" }).total = 1 := by
  exact ⟨rfl, by decide⟩

/-- C5 (amended): the route performs no balance-mode validation — any
mode other than `balance_zero` behaves exactly as `balance_non_zero`,
keeping rows with nonzero balance, while `balance_zero` keeps rows with
zero balance. -/
theorem applyBalanceMode_c5 :
    (∀ balanceMode row, balanceMode ≠ "balance_zero" →
      (applyBalanceMode balanceMode row = true ↔ row.account_balance ≠ 0))
    ∧ (∀ row, applyBalanceMode "balance_zero" row = true ↔ row.account_balance = 0)
    ∧ (∀ db st p, p.balanceMode ≠ "balance_zero" →
        runReport175Query db st p =
          runReport175Query db st { p with balanceMode := "balance_non_zero" }) := by
  refine ⟨?_, ?_, ?_⟩
  · intro balanceMode row h
    unfold applyBalanceMode
    rw [if_neg h]
    simp
  · intro row
    unfold applyBalanceMode
    rw [if_pos rfl]
    simp
  · intro db st p h
    obtain ⟨page, limit, search, mb, gid, bm⟩ := p
    have hb : applyBalanceMode bm = applyBalanceMode "balance_non_zero" := by
      funext row
      unfold applyBalanceMode
      rw [if_neg h, if_neg (by decide)]
    have hs : searchBalanceRows st search bm = searchBalanceRows st search "balance_non_zero" := by
      unfold searchBalanceRows
      rw [hb]
    have hh : handlingRowsAll db st search bm =
        handlingRowsAll db st search "balance_non_zero" := by
      unfold handlingRowsAll
      rw [hs]
    simp only [runReport175Query, hs, hh]

/-- C5 (witness): the amended theorem applied at concrete inputs. -/
theorem applyBalanceMode_c5_witness :
    (applyBalanceMode "bogus" (mkPlainRow "1" (some "a1") (some "2b") 5) = true ↔
      (mkPlainRow "1" (some "a1") (some "2b") 5).account_balance ≠ 0)
    ∧ (applyBalanceMode "balance_zero" (mkPlainRow "2" none none 0) = true ↔
      (mkPlainRow "2" none none 0).account_balance = 0)
    ∧ runReport175Query dbSample stSample
        { page := 1, limit := 20, search := "", managedBy := none, groupId := none,
          balanceMode := "weird" } =
      runReport175Query dbSample stSample
        { page := 1, limit := 20, search := "", managedBy := none, groupId := none,
          balanceMode := "balance_non_zero" } :=
  ⟨applyBalanceMode_c5.1 "bogus" _ (by decide),
   applyBalanceMode_c5.2.1 _,
   applyBalanceMode_c5.2.2 dbSample stSample _ (by decide)⟩

/-! ### Claim C8 — empty eligible set short-circuit -/

/-- C8: when a manager or group filter is active and the resolved
eligible-customer-id set is empty, the route short-circuits to
`total = 0`, `totalPages = 1` and an empty row list, independent of the
cache contents, page and limit — the unfiltered row set is never
paginated. -/
theorem runReport175Query_c8 (db : Db) (st : CacheState) (p : QueryParams)
    (hactive : p.managedBy ≠ none ∨ p.groupId ≠ none)
    (he : db.eligibleIds = []) :
    runReport175Query db st p =
      { customers := []
        total := 0
        page := p.page
        limit := p.limit
        totalPages := 1
        syncedAt := st.report175CacheSyncedAt
        report198SyncedAt := none
        report176SyncedAt := none } := by
  have hb : (p.managedBy.isSome || p.groupId.isSome) = true := by
    rcases hactive with h | h
    · cases hmb : p.managedBy with
      | none => exact absurd hmb h
      | some v => simp [hmb]
    · cases hgi : p.groupId with
      | none => exact absurd hgi h
      | some v => simp [hgi]
  simp only [runReport175Query, hb, he]
  simp

/-- C8 (witness): the short-circuit at a concrete nonempty cache with a
manager filter and empty eligible set. -/
theorem runReport175Query_c8_witness :
    runReport175Query dbSample stSample
        { page := 2, limit := 5, search := "", managedBy := some 3, groupId := none,
          balanceMode := "balance_non_zero" } =
      { customers := []
        total := 0
        page := 2
        limit := 5
        totalPages := 1
        syncedAt := none
        report198SyncedAt := none
        report176SyncedAt := none } :=
  runReport175Query_c8 dbSample stSample _ (Or.inl (by decide)) rfl

/-- C9 (witness): the amended matcher theorem applied at a concrete
one-row list matched by external id. -/
theorem pickReportRowForCustomer_c9_witness :
    pickReportRowForCustomer (fun s => s)
        [JValue.jobj [("מספר כרטיס חשבון", JValue.jstr "501")]]
        { external_id := some "501", company := none } =
      some (mapReport175Row (fun s => s)
        (JValue.jobj [("מספר כרטיס חשבון", JValue.jstr "501")])) :=
  (pickReportRowForCustomer_c9 (fun s => s)
      [JValue.jobj [("מספר כרטיס חשבון", JValue.jstr "501")]]
      { external_id := some "501", company := none }).2.1 _ (by decide)

/-! ### Claim C1 — row extractor heuristic -/

/-- The scoring loop returns the current best when no candidate beats
the running score, and otherwise the first candidate achieving the
maximal score among those beating it: a decomposition
`pre ++ best :: post` with every earlier candidate scoring strictly
less and every later one at most as much. -/
theorem pickBestLoop_spec (arrays : List (List JValue)) (best : List JValue)
    (bestScore : Int) :
    (pickBestLoop arrays best bestScore = best ∧
      ∀ a ∈ arrays, (scoreReport175Array a : Int) ≤ bestScore)
    ∨ (∃ pre r post, arrays = pre ++ r :: post ∧
        pickBestLoop arrays best bestScore = r ∧
        bestScore < (scoreReport175Array r : Int) ∧
        (∀ a ∈ pre, scoreReport175Array a < scoreReport175Array r) ∧
        (∀ a ∈ post, scoreReport175Array a ≤ scoreReport175Array r)) := by
  induction arrays generalizing best bestScore with
  | nil => exact Or.inl ⟨rfl, by simp⟩
  | cons a rest ih =>
      by_cases h : (scoreReport175Array a : Int) > bestScore
      · have heq0 : pickBestLoop (a :: rest) best bestScore =
            if (scoreReport175Array a : Int) > bestScore then
              pickBestLoop rest a (scoreReport175Array a)
            else pickBestLoop rest best bestScore := rfl
        have heq : pickBestLoop (a :: rest) best bestScore =
            pickBestLoop rest a (scoreReport175Array a) := heq0.trans (if_pos h)
        rcases ih a (scoreReport175Array a) with ⟨hres, hall⟩ |
            ⟨pre, r, post, harr, hres, hlt, hpre, hpost⟩
        · right
          refine ⟨[], a, rest, by simp, by rw [heq, hres], h, by simp, ?_⟩
          intro b hb
          exact_mod_cast hall b hb
        · right
          refine ⟨a :: pre, r, post, by simp [harr], by rw [heq, hres],
            lt_trans h hlt, ?_, hpost⟩
          intro b hb
          rcases List.mem_cons.mp hb with hb | hb
          · subst hb
            exact_mod_cast hlt
          · exact hpre b hb
      · have heq0 : pickBestLoop (a :: rest) best bestScore =
            if (scoreReport175Array a : Int) > bestScore then
              pickBestLoop rest a (scoreReport175Array a)
            else pickBestLoop rest best bestScore := rfl
        have heq : pickBestLoop (a :: rest) best bestScore =
            pickBestLoop rest best bestScore := heq0.trans (if_neg h)
        rcases ih best bestScore with ⟨hres, hall⟩ |
            ⟨pre, r, post, harr, hres, hlt, hpre, hpost⟩
        · left
          refine ⟨by rw [heq, hres], ?_⟩
          intro b hb
          rcases List.mem_cons.mp hb with hb | hb
          · subst hb
            exact le_of_not_lt h
          · exact hall b hb
        · right
          refine ⟨a :: pre, r, post, by simp [harr], by rw [heq, hres], hlt, ?_, hpost⟩
          intro b hb
          rcases List.mem_cons.mp hb with hb | hb
          · subst hb
            have hle : (scoreReport175Array b : Int) ≤ bestScore := le_of_not_lt h
            have := lt_of_le_of_lt hle hlt
            exact_mod_cast this
          · exact hpre b hb

/-- C1: the extractor returns an array payload as-is and yields the
empty sequence on non-object scalars; on an object payload it returns
the empty sequence when the breadth-first traversal collects no
candidate array, and otherwise the candidate with the highest score
`1000 * (predicate matches) + (object elements)`, the first-seen
candidate winning ties (every earlier candidate scores strictly less,
every later one at most as much).  The function is total, so it never
throws. -/
theorem extractReport175Rows_c1 :
    (∀ xs, extractReport175Rows (JValue.jarr xs) = xs)
    ∧ (extractReport175Rows JValue.jnull = []
        ∧ (∀ b, extractReport175Rows (JValue.jbool b) = [])
        ∧ (∀ q, extractReport175Rows (JValue.jnum q) = [])
        ∧ (∀ s, extractReport175Rows (JValue.jstr s) = []))
    ∧ (∀ fields, collectArrays [JValue.jobj fields] = [] →
        extractReport175Rows (JValue.jobj fields) = [])
    ∧ (∀ fields a0 rest, collectArrays [JValue.jobj fields] = a0 :: rest →
        ∃ pre best post,
          collectArrays [JValue.jobj fields] = pre ++ best :: post ∧
          extractReport175Rows (JValue.jobj fields) = best ∧
          (∀ a ∈ pre, scoreReport175Array a < scoreReport175Array best) ∧
          (∀ a ∈ post, scoreReport175Array a ≤ scoreReport175Array best)) := by
  refine ⟨fun xs => rfl, ⟨rfl, fun b => rfl, fun q => rfl, fun s => rfl⟩, ?_, ?_⟩
  · intro fields h
    simp only [extractReport175Rows]
    rw [h]
  · intro fields a0 rest h
    have hmain : extractReport175Rows (JValue.jobj fields) =
        pickBestLoop (a0 :: rest) a0 (-1) := by
      simp only [extractReport175Rows]
      rw [h]
    rcases pickBestLoop_spec (a0 :: rest) a0 (-1) with ⟨hres, hall⟩ |
        ⟨pre, r, post, harr, hres, hlt, hpre, hpost⟩
    · exfalso
      have h1 := hall a0 (by simp)
      have h0 : (0 : Int) ≤ (scoreReport175Array a0 : Int) := Int.ofNat_nonneg _
      omega
    · exact ⟨pre, r, post, by rw [h, harr], by rw [hmain, hres], hpre, hpost⟩

/-- A payload nesting the true report-shaped row array at depth two
beside a larger decoy array. -/
def samplePayloadFieldsC1 : List (String × JValue) :=
  [("meta", JValue.jstr "x"),
   ("data", JValue.jobj
     [("rows", JValue.jarr [JValue.jobj [("מספר כרטיס חשבון", JValue.jstr "7")]]),
      ("decoy", JValue.jarr [JValue.jobj [("z", JValue.jnull)],
        JValue.jobj [("z", JValue.jnull)]])])]

/-- C1 (witness): the extractor theorem applied to the concrete nested
payload whose traversal finds two candidate arrays. -/
theorem extractReport175Rows_c1_witness :
    ∃ pre best post,
      collectArrays [JValue.jobj samplePayloadFieldsC1] = pre ++ best :: post ∧
      extractReport175Rows (JValue.jobj samplePayloadFieldsC1) = best ∧
      (∀ a ∈ pre, scoreReport175Array a < scoreReport175Array best) ∧
      (∀ a ∈ post, scoreReport175Array a ≤ scoreReport175Array best) :=
  extractReport175Rows_c1.2.2.2 samplePayloadFieldsC1
    [JValue.jobj [("מספר כרטיס חשבון", JValue.jstr "7")]]
    [[JValue.jobj [("z", JValue.jnull)], JValue.jobj [("z", JValue.jnull)]]]
    (by simp [collectArrays, samplePayloadFieldsC1, jObjValues, jArrOf, isJObj])

/-! ### Claim C2 — external_id derivation of the primary mapper -/

theorem string_append_left_cancel (p a b : String) (h : p ++ a = p ++ b) : a = b := by
  have hd := congrArg String.data h
  simp only [String.data_append] at hd
  have hdd := List.append_cancel_left hd
  cases a with
  | mk da =>
      cases b with
      | mk db => exact congrArg String.mk (by simpa using hdd)

/-- C2: the primary mapper's `external_id` precedence — a positive
parsed account-card-number is stringified (whatever account key is
present); otherwise a nonempty trimmed account key is used; otherwise
the digest of the serialized row, under which two fallback rows with
distinct serializations collide only if the digest itself collides
(conjunct 4 assumes the digest injective, the property the engine
relies on for SHA-1).  Note the running code never imports `crypto`,
so the digest branch in fact throws — see the C2 failing input. -/
theorem mapReport175Row_c2 (sha1hex : String → String) (row : JValue) :
    (0 < toReport175Number (pickReport175Value row report175CardNumberKeys) →
      (mapReport175Row sha1hex row).external_id =
        ratToString (toReport175Number (pickReport175Value row report175CardNumberKeys)))
    ∧ (¬ 0 < toReport175Number (pickReport175Value row report175CardNumberKeys) →
        strTrim (jsStrOfOpt (pickReport175Value row report175AccountKeyKeys)) ≠ "" →
        (mapReport175Row sha1hex row).external_id =
          strTrim (jsStrOfOpt (pickReport175Value row report175AccountKeyKeys)))
    ∧ (¬ 0 < toReport175Number (pickReport175Value row report175CardNumberKeys) →
        strTrim (jsStrOfOpt (pickReport175Value row report175AccountKeyKeys)) = "" →
        (mapReport175Row sha1hex row).external_id =
          "row_" ++ sha1hex (jsonStringify row))
    ∧ (Function.Injective sha1hex →
        ∀ row2 : JValue,
          ¬ 0 < toReport175Number (pickReport175Value row report175CardNumberKeys) →
          strTrim (jsStrOfOpt (pickReport175Value row report175AccountKeyKeys)) = "" →
          ¬ 0 < toReport175Number (pickReport175Value row2 report175CardNumberKeys) →
          strTrim (jsStrOfOpt (pickReport175Value row2 report175AccountKeyKeys)) = "" →
          (mapReport175Row sha1hex row).external_id =
            (mapReport175Row sha1hex row2).external_id →
          jsonStringify row = jsonStringify row2) := by
  have hgen : ∀ r : JValue, (mapReport175Row sha1hex r).external_id =
      if 0 < toReport175Number (pickReport175Value r report175CardNumberKeys) then
        ratToString (toReport175Number (pickReport175Value r report175CardNumberKeys))
      else if strTrim (jsStrOfOpt (pickReport175Value r report175AccountKeyKeys)) ≠ "" then
        strTrim (jsStrOfOpt (pickReport175Value r report175AccountKeyKeys))
      else "row_" ++ sha1hex (jsonStringify r) := by
    intro r
    rfl
  refine ⟨?_, ?_, ?_, ?_⟩
  · intro h
    rw [hgen row, if_pos h]
  · intro h hk
    rw [hgen row, if_neg h, if_pos hk]
  · intro h hk
    rw [hgen row, if_neg h, if_neg (by simpa using hk)]
  · intro hinj row2 h1 k1 h2 k2 hid
    rw [hgen row, if_neg h1, if_neg (by simpa using k1)] at hid
    rw [hgen row2, if_neg h2, if_neg (by simpa using k2)] at hid
    exact hinj (string_append_left_cancel "row_" _ _ hid)

/-- C2 (witness): the precedence theorem applied at a row with a
positive card number and an account key, a row with only an account
key, and the empty-object row that reaches the digest fallback (the
failing input of the missing-import bug). -/
theorem mapReport175Row_c2_witness :
    (mapReport175Row (fun s => s)
        (JValue.jobj [("מספר כרטיס חשבון", JValue.jstr "501"),
          ("מפתח חשבון", JValue.jstr "K1")])).external_id = "501"
    ∧ (mapReport175Row (fun s => s)
        (JValue.jobj [("מפתח חשבון", JValue.jstr "K900")])).external_id = "K900"
    ∧ (mapReport175Row (fun s => s) (JValue.jobj [])).external_id = "row_\x7b\x7d" := by
  refine ⟨?_, ?_, ?_⟩
  · have h := (mapReport175Row_c2 (fun s => s)
        (JValue.jobj [("מספר כרטיס חשבון", JValue.jstr "501"),
          ("מפתח חשבון", JValue.jstr "K1")])).1 (by decide)
    rw [h]
    decide
  · have h := (mapReport175Row_c2 (fun s => s)
        (JValue.jobj [("מפתח חשבון", JValue.jstr "K900")])).2.1 (by decide) (by decide)
    rw [h]
    decide
  · have h := (mapReport175Row_c2 (fun s => s) (JValue.jobj [])).2.2.1
      (by decide) (by decide)
    rw [h]
    decide

/-! ### Claim C6 — search matching -/

/-- C6 (counterexample): the search `"1 2"` matches a row with
`account_key = "a1"` and `account_name = "2b"` because the route joins
the normalized fields with spaces into one haystack, even though no
individual own/enriched text field contains the search text and no
digit-normalized phone field contains its digits-only form — so
"matches iff some individual field contains the text" is false. -/
theorem rowMatchesSearch_c6_counterexample :
    rowMatchesSearch stSample (mkPlainRow "1" (some "a1") (some "2b") 5) "1 2" = true
    ∧ (searchTextFields stSample (mkPlainRow "1" (some "a1") (some "2b") 5)).all
        (fun f => !(strContains f (normalizeTextSearch "1 2"))) = true
    ∧ (phoneCandidatesOf stSample (mkPlainRow "1" (some "a1") (some "2b") 5)).all
        (fun p => !(strContains p (normalizePhoneSearch "1 2"))) = true := by
  exact ⟨by decide, by decide, by decide⟩

/-- A report-176 cache row with only a mobile phone (stored with
dashes). -/
def contact176A : ContactRow :=
  { external_id := none, account_key := some "A1", account_name := none,
    contact_name := none, email := none, phone := none,
    mobile_phone := some "050-123-4567" }

/-- A report-176 cache row with a near-miss mobile phone. -/
def contact176B : ContactRow :=
  { external_id := none, account_key := some "B1", account_name := none,
    contact_name := none, email := none, phone := none,
    mobile_phone := some "0501234568" }

/-- Contact cache for the phone-search scenario. -/
def stPhoneScenario : CacheState :=
  { emptyCacheState with
    report176CacheByAccountKey := [("A1", contact176A), ("B1", contact176B)] }

/-- C6 (amended): a row matches exactly when the search is empty, or
the space-joined concatenation of its normalized own/enriched text
fields contains the lowercase-trimmed search, or the search's
digits-only form is nonempty and some digit-normalized phone candidate
of the row contains it; in particular `"0501234567"` matches a row
whose enriched mobile phone is stored as `"050-123-4567"` but not one
whose phone is `"0501234568"`. -/
theorem rowMatchesSearch_c6 (st : CacheState) (row : Report175Row) (search : String) :
    (rowMatchesSearch st row search = true ↔
      (search = "" ∨
        strContains (searchTextHaystack st row) (normalizeTextSearch search) = true ∨
        (normalizePhoneSearch search ≠ "" ∧
          ∃ phone ∈ phoneCandidatesOf st row,
            strContains phone (normalizePhoneSearch search) = true)))
    ∧ rowMatchesSearch stPhoneScenario (mkPlainRow "10" (some "A1") none 1)
        "0501234567" = true
    ∧ rowMatchesSearch stPhoneScenario (mkPlainRow "11" (some "B1") none 1)
        "0501234567" = false := by
  refine ⟨?_, by decide, by decide⟩
  by_cases h0 : search = ""
  · simp [rowMatchesSearch, h0]
  · simp only [rowMatchesSearch, if_neg h0]
    by_cases h1 : strContains (searchTextHaystack st row) (normalizeTextSearch search) = true
    · simp [h0, h1]
    · simp only [h1, if_false]
      by_cases h2 : normalizePhoneSearch search ≠ ""
      · simp only [if_pos h2]
        simp [h0, h1, h2, List.any_eq_true]
      · simp only [if_neg h2]
        simp [h0, h1, h2]

/-! ### Claim C7 — enrichment joiner priority -/

theorem jsStrOr_some_ne (s : String) (hs : s ≠ "") (b : Option String) :
    jsStrOr (some s) b = some s := by
  simp [jsStrOr, hs]

theorem jsStrOr_of_null (a b : Option String) (h : jsStrNull a = none) :
    jsStrOr a b = b := by
  cases a with
  | none => rfl
  | some s =>
      by_cases hs : s = ""
      · subst hs
        rfl
      · exfalso
        simp [jsStrNull, jsStrOr, hs] at h

/-- C7: the joiner looks report 176 up by account key only and report
198 up by account key with an external-id fallback; for each of
`account_name`/`email`/`phone`/`mobile_phone`, a nonempty report-176
value wins, else a nonempty report-198 value, else the fallback (the
row's own name for `account_name`, null otherwise); `contact_name`
comes from report 176 alone.  The joiner reads the caches and builds a
fresh record — no cached row is modified (the embedding is pure by
construction). -/
theorem getEnrichmentForWorkRow_c7 (st : CacheState) (workRow : Report175Row) :
    (∀ c, jsMapGet st.report198CacheByAccountKey (jsStringOrEmpty workRow.account_key)
        = some c → enrichFrom198 st workRow = some c)
    ∧ (jsMapGet st.report198CacheByAccountKey (jsStringOrEmpty workRow.account_key)
        = none → enrichFrom198 st workRow =
          jsMapGet st.report198CacheByExternalId workRow.external_id)
    ∧ (∀ s, s ≠ "" → (enrichFrom176 st workRow).bind (fun c => c.account_name) = some s →
        (getEnrichmentForWorkRow st workRow).account_name = some s)
    ∧ (jsStrNull ((enrichFrom176 st workRow).bind (fun c => c.account_name)) = none →
        ∀ s, s ≠ "" → (enrichFrom198 st workRow).bind (fun c => c.account_name) = some s →
        (getEnrichmentForWorkRow st workRow).account_name = some s)
    ∧ (jsStrNull ((enrichFrom176 st workRow).bind (fun c => c.account_name)) = none →
        jsStrNull ((enrichFrom198 st workRow).bind (fun c => c.account_name)) = none →
        (getEnrichmentForWorkRow st workRow).account_name =
          jsStrNull workRow.account_name)
    ∧ (∀ s, s ≠ "" → (enrichFrom176 st workRow).bind (fun c => c.email) = some s →
        (getEnrichmentForWorkRow st workRow).email = some s)
    ∧ (jsStrNull ((enrichFrom176 st workRow).bind (fun c => c.email)) = none →
        ∀ s, s ≠ "" → (enrichFrom198 st workRow).bind (fun c => c.email) = some s →
        (getEnrichmentForWorkRow st workRow).email = some s)
    ∧ (jsStrNull ((enrichFrom176 st workRow).bind (fun c => c.email)) = none →
        jsStrNull ((enrichFrom198 st workRow).bind (fun c => c.email)) = none →
        (getEnrichmentForWorkRow st workRow).email = none)
    ∧ (∀ s, s ≠ "" → (enrichFrom176 st workRow).bind (fun c => c.phone) = some s →
        (getEnrichmentForWorkRow st workRow).phone = some s)
    ∧ (jsStrNull ((enrichFrom176 st workRow).bind (fun c => c.phone)) = none →
        ∀ s, s ≠ "" → (enrichFrom198 st workRow).bind (fun c => c.phone) = some s →
        (getEnrichmentForWorkRow st workRow).phone = some s)
    ∧ (jsStrNull ((enrichFrom176 st workRow).bind (fun c => c.phone)) = none →
        jsStrNull ((enrichFrom198 st workRow).bind (fun c => c.phone)) = none →
        (getEnrichmentForWorkRow st workRow).phone = none)
    ∧ (∀ s, s ≠ "" → (enrichFrom176 st workRow).bind (fun c => c.mobile_phone) = some s →
        (getEnrichmentForWorkRow st workRow).mobile_phone = some s)
    ∧ (jsStrNull ((enrichFrom176 st workRow).bind (fun c => c.mobile_phone)) = none →
        ∀ s, s ≠ "" → (enrichFrom198 st workRow).bind (fun c => c.mobile_phone) = some s →
        (getEnrichmentForWorkRow st workRow).mobile_phone = some s)
    ∧ (jsStrNull ((enrichFrom176 st workRow).bind (fun c => c.mobile_phone)) = none →
        jsStrNull ((enrichFrom198 st workRow).bind (fun c => c.mobile_phone)) = none →
        (getEnrichmentForWorkRow st workRow).mobile_phone = none)
    ∧ (getEnrichmentForWorkRow st workRow).contact_name =
        jsStrNull ((enrichFrom176 st workRow).bind (fun c => c.contact_name)) := by
  refine ⟨?_, ?_, ?_, ?_, ?_, ?_, ?_, ?_, ?_, ?_, ?_, ?_, ?_, ?_, ?_⟩
  · intro c h
    simp [enrichFrom198, jsOptOr, h]
  · intro h
    simp [enrichFrom198, jsOptOr, h]
  · intro s hs h
    simp only [getEnrichmentForWorkRow, h, jsStrOr_some_ne s hs]
  · intro h176 s hs h198
    simp only [getEnrichmentForWorkRow, jsStrOr_of_null _ _ h176, h198,
      jsStrOr_some_ne s hs]
  · intro h176 h198
    simp only [getEnrichmentForWorkRow, jsStrOr_of_null _ _ h176,
      jsStrOr_of_null _ _ h198]
  · intro s hs h
    simp only [getEnrichmentForWorkRow, h, jsStrOr_some_ne s hs]
  · intro h176 s hs h198
    simp only [getEnrichmentForWorkRow, jsStrOr_of_null _ _ h176, h198]
    simp [jsStrNull, jsStrOr, hs]
  · intro h176 h198
    simp only [getEnrichmentForWorkRow, jsStrOr_of_null _ _ h176, h198]
  · intro s hs h
    simp only [getEnrichmentForWorkRow, h, jsStrOr_some_ne s hs]
  · intro h176 s hs h198
    simp only [getEnrichmentForWorkRow, jsStrOr_of_null _ _ h176, h198]
    simp [jsStrNull, jsStrOr, hs]
  · intro h176 h198
    simp only [getEnrichmentForWorkRow, jsStrOr_of_null _ _ h176, h198]
  · intro s hs h
    simp only [getEnrichmentForWorkRow, h, jsStrOr_some_ne s hs]
  · intro h176 s hs h198
    simp only [getEnrichmentForWorkRow, jsStrOr_of_null _ _ h176, h198]
    simp [jsStrNull, jsStrOr, hs]
  · intro h176 h198
    simp only [getEnrichmentForWorkRow, jsStrOr_of_null _ _ h176, h198]
  · rfl

/-- Report-176 row for the C7 witness: curated name and contact, empty
phone, no email. -/
def contact176C7 : ContactRow :=
  { external_id := none, account_key := some "A1", account_name := some "N176",
    contact_name := some "C176", email := none, phone := some "",
    mobile_phone := none }

/-- Report-198 row for the C7 witness. -/
def contact198C7 : ContactRow :=
  { external_id := some "7", account_key := some "A1", account_name := some "N198",
    contact_name := none, email := some "e@x", phone := some "P198",
    mobile_phone := some "M198" }

/-- Cache state for the C7 witness. -/
def stC7 : CacheState :=
  { emptyCacheState with
    report176CacheByAccountKey := [("A1", contact176C7)]
    report198CacheByAccountKey := [("A1", contact198C7)] }

/-- Primary row for the C7 witness. -/
def rowC7 : Report175Row :=
  mkPlainRow "7" (some "A1") (some "OwnName") 1

/-- C7 (witness): the priority theorem applied at a concrete cache
where report 176 supplies the name and contact, and report 198 (found
by account key) supplies the email. -/
theorem getEnrichmentForWorkRow_c7_witness :
    enrichFrom198 stC7 rowC7 = some contact198C7
    ∧ (getEnrichmentForWorkRow stC7 rowC7).account_name = some "N176"
    ∧ (getEnrichmentForWorkRow stC7 rowC7).email = some "e@x"
    ∧ (getEnrichmentForWorkRow stC7 rowC7).contact_name = some "C176" := by
  refine ⟨?_, ?_, ?_, ?_⟩
  · exact (getEnrichmentForWorkRow_c7 stC7 rowC7).1 contact198C7 rfl
  · exact (getEnrichmentForWorkRow_c7 stC7 rowC7).2.2.1 "N176" (by decide) rfl
  · exact (getEnrichmentForWorkRow_c7 stC7 rowC7).2.2.2.2.2.2.1 rfl "e@x"
      (by decide) rfl
  · exact ((getEnrichmentForWorkRow_c7 stC7 rowC7).2.2.2.2.2.2.2.2.2.2.2.2.2.2).trans
      (by decide)

/-! ### Claim C4 — sync orchestrator partial failure -/

/-- C4: a primary-report failure fails the whole sync; on primary
success the primary cache is replaced with the newly mapped rows and
stamped, the warning list holds exactly one warning per failed
contact-info report (and nothing else), and a failed contact report's
cache — indexes and last-synced timestamp — is left exactly at its
previous state. -/
theorem syncAll_c4 (sha1hex : String → String) (now : Nat)
    (fetch175 fetch198 fetch176 : Except String JValue) (st : CacheState) :
    (∀ e, fetch175 = .error e →
      syncAll sha1hex now fetch175 fetch198 fetch176 st = .error e)
    ∧ (∀ payload175, fetch175 = .ok payload175 →
        ∃ st' summary,
          syncAll sha1hex now fetch175 fetch198 fetch176 st = .ok (st', summary) ∧
          st'.report175CacheRows =
            ((extractReport175Rows payload175).filter jsTruthyObject).map
              (mapReport175Row sha1hex) ∧
          st'.report175CacheSyncedAt = some now ∧
          summary.warnings =
            (match fetch198 with
              | .error e => [syncWarning "198" e]
              | .ok _ => []) ++
            (match fetch176 with
              | .error e => [syncWarning "176" e]
              | .ok _ => []) ∧
          (∀ e, fetch198 = .error e →
            st'.report198CacheByAccountKey = st.report198CacheByAccountKey ∧
            st'.report198CacheByExternalId = st.report198CacheByExternalId ∧
            st'.report198CacheSyncedAt = st.report198CacheSyncedAt) ∧
          (∀ e, fetch176 = .error e →
            st'.report176CacheByAccountKey = st.report176CacheByAccountKey ∧
            st'.report176CacheSyncedAt = st.report176CacheSyncedAt)) := by
  constructor
  · intro e he
    subst he
    rfl
  · intro payload175 h175
    subst h175
    cases fetch198 with
    | ok p198 =>
        cases fetch176 with
        | ok p176 =>
            refine ⟨_, _, rfl, ?_, ?_, ?_, ?_, ?_⟩ <;>
              simp [syncAll, setReport175Cache, setReport198Cache, setReport176Cache]
        | error e176 =>
            refine ⟨_, _, rfl, ?_, ?_, ?_, ?_, ?_⟩ <;>
              simp [syncAll, setReport175Cache, setReport198Cache, setReport176Cache]
    | error e198 =>
        cases fetch176 with
        | ok p176 =>
            refine ⟨_, _, rfl, ?_, ?_, ?_, ?_, ?_⟩ <;>
              simp [syncAll, setReport175Cache, setReport198Cache, setReport176Cache]
        | error e176 =>
            refine ⟨_, _, rfl, ?_, ?_, ?_, ?_, ?_⟩ <;>
              simp [syncAll, setReport175Cache, setReport198Cache, setReport176Cache]

/-- C4 (witness): sync with a succeeding (empty) primary report, a
timed-out report 198 and a succeeding report 176 — one warning, primary
cache replaced and stamped, report-198 cache untouched. -/
theorem syncAll_c4_witness :
    ∃ st' summary,
      syncAll (fun s => s) 7 (Except.ok (JValue.jarr [])) (Except.error "timeout")
          (Except.ok (JValue.jarr [])) emptyCacheState = Except.ok (st', summary) ∧
      st'.report175CacheRows = [] ∧
      st'.report175CacheSyncedAt = some 7 ∧
      summary.warnings = [syncWarning "198" "timeout"] ∧
      (∀ e, (Except.error "timeout" : Except String JValue) = Except.error e →
        st'.report198CacheByAccountKey = emptyCacheState.report198CacheByAccountKey ∧
        st'.report198CacheByExternalId = emptyCacheState.report198CacheByExternalId ∧
        st'.report198CacheSyncedAt = emptyCacheState.report198CacheSyncedAt) ∧
      (∀ e, (Except.ok (JValue.jarr []) : Except String JValue) = Except.error e →
        st'.report176CacheByAccountKey = emptyCacheState.report176CacheByAccountKey ∧
        st'.report176CacheSyncedAt = emptyCacheState.report176CacheSyncedAt) :=
  (syncAll_c4 (fun s => s) 7 (Except.ok (JValue.jarr [])) (Except.error "timeout")
    (Except.ok (JValue.jarr [])) emptyCacheState).2 (JValue.jarr []) rfl

/-! ### Claim C3 — pagination invariant -/

theorem hydrateFrom_append (st : CacheState) (n : Nat) (a b : List WorkRow) :
    hydrateFrom st n (a ++ b) =
      hydrateFrom st n a ++ hydrateFrom st (n + a.length) b := by
  induction a generalizing n with
  | nil => simp [hydrateFrom]
  | cons w ws ih =>
      simp only [List.cons_append]
      show hydrateRow st (n + 1) w :: hydrateFrom st (n + 1) (ws ++ b) =
        (hydrateRow st (n + 1) w :: hydrateFrom st (n + 1) ws) ++
          hydrateFrom st (n + (ws.length + 1)) b
      rw [List.cons_append, ih (n + 1)]
      have harith : n + 1 + ws.length = n + (ws.length + 1) := by omega
      rw [harith]

theorem hydrateFrom_pages_aux (st : CacheState) (l : List WorkRow) (limit : Nat) :
    ∀ n, ((List.range n).map (fun i => hydrateFrom st (i * limit)
      ((l.drop (i * limit)).take limit))).flatten =
      hydrateFrom st 0 (l.take (n * limit)) := by
  intro n
  induction n with
  | zero => simp [hydrateFrom]
  | succ k ih =>
      rw [List.range_succ, List.map_append, List.flatten_append]
      simp only [List.map_cons, List.map_nil, List.flatten_cons, List.flatten_nil,
        List.append_nil]
      rw [ih]
      have hsucc : (k + 1) * limit = k * limit + limit := by ring
      rw [hsucc, List.take_add, hydrateFrom_append]
      rcases le_or_lt l.length (k * limit) with hle | hlt
      · rw [List.drop_eq_nil_of_le hle]
        simp [hydrateFrom]
      · congr 2
        rw [List.length_take]
        omega

theorem hydrateFrom_pages (st : CacheState) (l : List WorkRow) (limit : Nat) (n : Nat)
    (hn : l.length ≤ n * limit) :
    ((List.range n).map (fun i => hydrateFrom st (i * limit)
      ((l.drop (i * limit)).take limit))).flatten = hydrateFrom st 0 l := by
  rw [hydrateFrom_pages_aux st l limit n, List.take_of_length_le hn]

theorem le_totalPages_mul (total limit : Nat) (hl : 0 < limit) :
    total ≤ queryTotalPages total limit * limit := by
  unfold queryTotalPages
  rcases Nat.eq_zero_or_pos total with h0 | hpos
  · subst h0
    exact Nat.zero_le _
  · have hq : (total + limit - 1) / limit * limit + (total + limit - 1) % limit
        = total + limit - 1 := by
      rw [Nat.mul_comm]
      exact Nat.div_add_mod _ _
    have hm : (total + limit - 1) % limit < limit := Nat.mod_lt _ hl
    have hle : (total + limit - 1) / limit ≤ max 1 ((total + limit - 1) / limit) :=
      le_max_right _ _
    have hmul : (total + limit - 1) / limit * limit ≤
        max 1 ((total + limit - 1) / limit) * limit := Nat.mul_le_mul_right _ hle
    generalize hx : (total + limit - 1) / limit * limit = x at hq hmul
    generalize hy : max 1 ((total + limit - 1) / limit) * limit = y at hmul
    omega

/-- The pre-pagination filtered count the route reports as `total`:
search+balance matches, further restricted to eligible joined rows when
a manager/group filter is active. -/
def specTotalRows (db : Db) (st : CacheState) (search balanceMode : String)
    (managedBy groupId : Option Int) : Nat :=
  if managedBy.isSome || groupId.isSome then
    (handlingRowsAll db st search balanceMode).length
  else (searchBalanceRows st search balanceMode).length

/-- The full filtered-and-hydrated result set, ids numbered from 1. -/
def fullResultRows (db : Db) (st : CacheState) (search balanceMode : String)
    (managedBy groupId : Option Int) : List HydratedRow :=
  if managedBy.isSome || groupId.isSome then
    hydrateFrom st 0 (handlingRowsAll db st search balanceMode)
  else hydrateFrom st 0 ((searchBalanceRows st search balanceMode).map (attachById db))

theorem run_inactive_shape (db : Db) (st : CacheState) (p : QueryParams)
    (hb : (p.managedBy.isSome || p.groupId.isSome) = false) :
    runReport175Query db st p =
      { customers := hydrateFrom st ((p.page - 1) * p.limit)
          ((((searchBalanceRows st p.search p.balanceMode).map (attachById db)).drop
            ((p.page - 1) * p.limit)).take p.limit)
        total := (searchBalanceRows st p.search p.balanceMode).length
        page := p.page
        limit := p.limit
        totalPages := queryTotalPages (searchBalanceRows st p.search p.balanceMode).length
          p.limit
        syncedAt := st.report175CacheSyncedAt
        report198SyncedAt := st.report198CacheSyncedAt
        report176SyncedAt := st.report176CacheSyncedAt } := by
  simp only [runReport175Query, hb, Bool.false_eq_true, if_false]
  rw [List.map_take, List.map_drop]

theorem run_active_shape (db : Db) (st : CacheState) (p : QueryParams)
    (hb : (p.managedBy.isSome || p.groupId.isSome) = true)
    (hne : ¬ db.eligibleIds.length = 0) :
    runReport175Query db st p =
      { customers := hydrateFrom st ((p.page - 1) * p.limit)
          (((handlingRowsAll db st p.search p.balanceMode).drop
            ((p.page - 1) * p.limit)).take p.limit)
        total := (handlingRowsAll db st p.search p.balanceMode).length
        page := p.page
        limit := p.limit
        totalPages := queryTotalPages (handlingRowsAll db st p.search p.balanceMode).length
          p.limit
        syncedAt := st.report175CacheSyncedAt
        report198SyncedAt := st.report198CacheSyncedAt
        report176SyncedAt := st.report176CacheSyncedAt } := by
  simp only [runReport175Query, hb, if_true, hne, if_false]

theorem run_shortcircuit_shape (db : Db) (st : CacheState) (p : QueryParams)
    (hb : (p.managedBy.isSome || p.groupId.isSome) = true)
    (he : db.eligibleIds.length = 0) :
    runReport175Query db st p =
      { customers := []
        total := 0
        page := p.page
        limit := p.limit
        totalPages := 1
        syncedAt := st.report175CacheSyncedAt
        report198SyncedAt := none
        report176SyncedAt := none } := by
  simp only [runReport175Query, hb, if_true, he, if_pos]

/-- C3: against a fixed cache snapshot and filter combination, for any
`limit > 0` the concatenation of the `customers` lists of pages
`1..totalPages` equals the full filtered, hydrated result set (no
duplicates, no omissions, ids numbered consecutively from 1); the
reported `total` is the pre-pagination filtered count, and `totalPages`
is `max 1 (ceil (total / limit))`. -/
theorem report175_pagination_c3 (db : Db) (st : CacheState)
    (search balanceMode : String) (managedBy groupId : Option Int)
    (limit : Nat) (hl : 0 < limit) :
    (((List.range (runReport175Query db st
        { page := 1, limit := limit, search := search, managedBy := managedBy,
          groupId := groupId, balanceMode := balanceMode }).totalPages).map
        (fun i => (runReport175Query db st
          { page := i + 1, limit := limit, search := search, managedBy := managedBy,
            groupId := groupId, balanceMode := balanceMode }).customers)).flatten
      = fullResultRows db st search balanceMode managedBy groupId)
    ∧ (runReport175Query db st
        { page := 1, limit := limit, search := search, managedBy := managedBy,
          groupId := groupId, balanceMode := balanceMode }).total
      = specTotalRows db st search balanceMode managedBy groupId
    ∧ (runReport175Query db st
        { page := 1, limit := limit, search := search, managedBy := managedBy,
          groupId := groupId, balanceMode := balanceMode }).totalPages
      = max 1 ((specTotalRows db st search balanceMode managedBy groupId + limit - 1)
          / limit) := by
  cases hbool : (managedBy.isSome || groupId.isSome) with
  | false =>
      have hshape : ∀ page, runReport175Query db st
          { page := page, limit := limit, search := search, managedBy := managedBy,
            groupId := groupId, balanceMode := balanceMode } =
          { customers := hydrateFrom st ((page - 1) * limit)
              ((((searchBalanceRows st search balanceMode).map (attachById db)).drop
                ((page - 1) * limit)).take limit)
            total := (searchBalanceRows st search balanceMode).length
            page := page
            limit := limit
            totalPages := queryTotalPages (searchBalanceRows st search balanceMode).length
              limit
            syncedAt := st.report175CacheSyncedAt
            report198SyncedAt := st.report198CacheSyncedAt
            report176SyncedAt := st.report176CacheSyncedAt } :=
        fun page => run_inactive_shape db st _ hbool
      refine ⟨?_, ?_, ?_⟩
      · simp only [hshape, Nat.add_sub_cancel]
        rw [hydrateFrom_pages st _ limit _ (by
          rw [List.length_map]
          exact le_totalPages_mul _ _ hl)]
        simp only [fullResultRows, hbool, Bool.false_eq_true, if_false]
      · simp only [hshape, specTotalRows, hbool, Bool.false_eq_true, if_false]
      · simp only [hshape, specTotalRows, hbool, Bool.false_eq_true, if_false]
        rfl
  | true =>
      by_cases he : db.eligibleIds.length = 0
      · have hshape : ∀ page, runReport175Query db st
            { page := page, limit := limit, search := search, managedBy := managedBy,
              groupId := groupId, balanceMode := balanceMode } =
            { customers := []
              total := 0
              page := page
              limit := limit
              totalPages := 1
              syncedAt := st.report175CacheSyncedAt
              report198SyncedAt := none
              report176SyncedAt := none } :=
          fun page => run_shortcircuit_shape db st _ hbool he
        have hempty : handlingRowsAll db st search balanceMode = [] := by
          have hids : db.eligibleIds = [] := List.length_eq_zero.mp he
          unfold handlingRowsAll
          refine List.filter_eq_nil_iff.mpr ?_
          intro w hw
          cases hcid : w.customer_id with
          | none => simp [eligibleWorkRow, hcid]
          | some cid => simp [eligibleWorkRow, hcid, hids]
        refine ⟨?_, ?_, ?_⟩
        · simp only [hshape]
          simp [fullResultRows, hbool, hempty, hydrateFrom]
        · simp only [hshape]
          simp [specTotalRows, hbool, hempty]
        · simp only [hshape]
          have hz : (limit - 1) / limit = 0 := Nat.div_eq_of_lt (by omega)
          simp [specTotalRows, hbool, hempty, hz]
      · have hshape : ∀ page, runReport175Query db st
            { page := page, limit := limit, search := search, managedBy := managedBy,
              groupId := groupId, balanceMode := balanceMode } =
            { customers := hydrateFrom st ((page - 1) * limit)
                (((handlingRowsAll db st search balanceMode).drop
                  ((page - 1) * limit)).take limit)
              total := (handlingRowsAll db st search balanceMode).length
              page := page
              limit := limit
              totalPages := queryTotalPages
                (handlingRowsAll db st search balanceMode).length limit
              syncedAt := st.report175CacheSyncedAt
              report198SyncedAt := st.report198CacheSyncedAt
              report176SyncedAt := st.report176CacheSyncedAt } :=
          fun page => run_active_shape db st _ hbool he
        refine ⟨?_, ?_, ?_⟩
        · simp only [hshape, Nat.add_sub_cancel]
          rw [hydrateFrom_pages st _ limit _ (le_totalPages_mul _ _ hl)]
          simp only [fullResultRows, hbool, if_true]
        · simp only [hshape, specTotalRows, hbool, if_true]
        · simp only [hshape, specTotalRows, hbool, if_true]
          rfl

/-- C3 (witness): the pagination invariant at the sample cache with
`limit = 1` (two rows, one surviving the balance filter). -/
theorem report175_pagination_c3_witness :
    (((List.range (runReport175Query dbSample stSample
        { page := 1, limit := 1, search := "", managedBy := none, groupId := none,
          balanceMode := "balance_non_zero" }).totalPages).map
        (fun i => (runReport175Query dbSample stSample
          { page := i + 1, limit := 1, search := "", managedBy := none, groupId := none,
            balanceMode := "balance_non_zero" }).customers)).flatten
      = fullResultRows dbSample stSample "" "balance_non_zero" none none)
    ∧ (runReport175Query dbSample stSample
        { page := 1, limit := 1, search := "", managedBy := none, groupId := none,
          balanceMode := "balance_non_zero" }).total
      = specTotalRows dbSample stSample "" "balance_non_zero" none none
    ∧ (runReport175Query dbSample stSample
        { page := 1, limit := 1, search := "", managedBy := none, groupId := none,
          balanceMode := "balance_non_zero" }).totalPages
      = max 1 ((specTotalRows dbSample stSample "" "balance_non_zero" none none + 1 - 1)
          / 1) :=
  report175_pagination_c3 dbSample stSample "" "balance_non_zero" none none 1 (by decide)
